import Mathlib

/-!
Shallow embedding of the autoppia_affine evaluation environment.

The repository is an HTTP evaluation harness: a FastAPI service drives a
remote agent through web-automation tasks by repeatedly POSTing the current
page snapshot to the agent endpoint and forwarding the proposed action to an
external stateful evaluator (`autoppia_iwa.StatefulEvaluator`).

Two near-duplicate implementations of the loop exist in the source:
  * `src/env.py` (the "main" multi-task service), and
  * `src/autoppia_affine/src/affine_env/env.py` (the "variant" single-task
    service).
Both are embedded below.  The external evaluator is modelled as an oracle
(`EvaluatorModel`) whose `reset` and `step` operations may return a result or
raise (modelled as `Option`); `step` receives the full history of optional
actions applied so far, which is the most general behaviour of a
deterministic stateful evaluator.  Python floats are modelled as `Rat`;
Python string falsiness (`x or y`) is modelled with the empty string standing
for an absent value.  Observable side effects (HTTP posts, evaluator calls,
resource cleanup) are recorded in an event trace.
-/

namespace AffineEnv

/-- Outcome record of the external evaluator after reset or a step
(`autoppia_iwa` ScoreDetails: raw score, success flag, test counters). -/
structure ScoreDetails where
  raw_score : Rat
  success : Bool
  tests_passed : Nat
  total_tests : Nat
deriving Repr, DecidableEq

/-- Page state after a step: HTML and current URL.  An absent URL or HTML is
modelled as the empty string (Python falsy). -/
structure Snapshot where
  url : String
  html : String
deriving Repr, DecidableEq

/-- In-memory task record (`autoppia_iwa` Task as constructed by the
loaders in `utils.py` and the variant env). -/
structure Task where
  id : String
  is_web_real : Bool
  web_project_id : String
  url : String
  prompt : String
  tests : List String
  relevant_data : List (String × String)
deriving Repr, DecidableEq

/-- A parsed action forwarded to the evaluator.  The loop never inspects the
action contents, so only the shapes from the agent contract are kept. -/
inductive Action where
  | navigate (url : String)
  | click (selectorValue : String)
  | wait (seconds : Rat)
deriving Repr, DecidableEq

/-- Result of `evaluator.reset()` or `evaluator.step(...)`. -/
structure StepResult where
  score : ScoreDetails
  snapshot : Snapshot
deriving Repr, DecidableEq

/-- Oracle model of the external `StatefulEvaluator`.  `none` models the call
raising an exception.  `step` is given the list of optional actions applied
so far (last element = the action of the current step), which lets the
oracle represent any deterministic stateful evaluator. -/
structure EvaluatorModel where
  reset : Option StepResult
  step : List (Option Action) → Option StepResult

/-- One element of the raw `actions` list in an agent response body, as seen
by the parsing loop in `src/env.py`: a non-dict item (skipped by the
`isinstance` check), a dict rejected by `BaseAction.create_action` (skipped
with a warning), or a successfully parsed action. -/
inductive RawAction where
  | notDict
  | unparseable
  | parsed (a : Action)
deriving Repr, DecidableEq

/-- Outcome of one agent POST in the main loop (`src/env.py`): either the
request failed (transport error, non-2xx status, or malformed JSON body) or
a body was obtained, with an optional `actions` list and a `done` field
(the main loop never reads `done`; it is kept to state that fact). -/
inductive AgentResult where
  | failure
  | ok (actions : Option (List RawAction)) (done : Bool)
deriving Repr, DecidableEq

/-- Outcome of one agent POST in the variant loop
(`autoppia_affine/src/affine_env/env.py`): the request failed, or a body
with an optional `navigate_url` and a `done` flag was obtained. -/
inductive VariantAgentResult where
  | failure
  | ok (navigate_url : Option String) (done : Bool)
deriving Repr, DecidableEq

/-- Step request body built by the main loop (`src/env.py` lines 125-132). -/
structure StepPayload where
  task_id : String
  prompt : String
  url : String
  snapshot_html : String
  step_index : Nat
  web_project_id : String
deriving Repr, DecidableEq

/-- Step request body built by the variant loop (lines 209-214). -/
structure VariantStepPayload where
  task_id : String
  step_index : Nat
  snapshot_html : String
  current_url : String
deriving Repr, DecidableEq

/-- Observable effects of a task evaluation, in order of occurrence. -/
inductive Event where
  | clientCreated
  | resetCalled
  | postSent (p : StepPayload)
  | variantPostSent (p : VariantStepPayload)
  | evalStep (a : Option Action)
  | sessionClose
  | evaluatorClose
deriving Repr, DecidableEq

/-- Exceptions that can escape a task evaluation. -/
inductive EvalExn where
  | resetRaised
  | stepRaised
  | transportError
  | noNavigateUrl
deriving Repr, DecidableEq

/-- Per-task result record (`TaskEvaluationDetail` pydantic model). -/
structure TaskEvaluationDetail where
  task_id : String
  project_id : String
  score : Rat
  raw_score : Rat
  success : Bool
  tests_passed : Nat
  total_tests : Nat
  steps : Nat
deriving Repr, DecidableEq

/-- Python `x or y` on strings, with the empty string standing for a falsy
value (absent / empty). -/
def orElseStr (x y : String) : String :=
  if x = "" then y else x

/-- The step request of the main loop: `src/env.py` lines 125-132.
`url` is `snapshot.url or task.url`; `snapshot_html` is
`snapshot.html or ""`. -/
def buildPayload (task : Task) (snapshot : Snapshot) (step_index : Nat) :
    StepPayload :=
  { task_id := task.id
    prompt := task.prompt
    url := orElseStr snapshot.url task.url
    snapshot_html := orElseStr snapshot.html ""
    step_index := step_index
    web_project_id := task.web_project_id }

/-- `resp_data.get("actions") or []` in the main loop: a transport failure
was caught and replaced by an empty body, and an absent `actions` key
yields the empty list. -/
def extractRawActions : AgentResult → List RawAction
  | AgentResult.failure => []
  | AgentResult.ok none _ => []
  | AgentResult.ok (some l) _ => l

/-- The action-parsing loop of `src/env.py` lines 151-159: non-dict items
and items rejected by `BaseAction.create_action` are skipped, the rest are
kept in order. -/
def parseActions (raws : List RawAction) : List Action :=
  raws.filterMap fun r =>
    match r with
    | RawAction.parsed a => some a
    | RawAction.notDict => none
    | RawAction.unparseable => none

/-- State carried across iterations of the while loop. -/
structure LoopState where
  step_index : Nat
  score : ScoreDetails
  snapshot : Snapshot
  done : Bool
  applied : List (Option Action)
deriving Repr, DecidableEq

/-- Loop state right after `evaluator.reset()`. -/
def initState (first : StepResult) : LoopState :=
  { step_index := 0
    score := first.score
    snapshot := first.snapshot
    done := false
    applied := [] }

/-- One iteration of the main while loop (`src/env.py` lines 124-175):
build the payload, POST it (failures caught and treated as an empty body),
parse the actions, apply the first parsed action (or NOOP = `None`), then
take the evaluator score, snapshot and success flag. -/
def loopIter (ev : EvaluatorModel) (agent : Nat → AgentResult) (task : Task)
    (s : LoopState) : List Event × Except EvalExn LoopState :=
  let payload := buildPayload task s.snapshot s.step_index
  let raws := extractRawActions (agent s.step_index)
  let actions := parseActions raws
  let base_action := actions.head?
  let applied := s.applied ++ [base_action]
  let events := [Event.postSent payload, Event.evalStep base_action]
  match ev.step applied with
  | none => (events, Except.error EvalExn.stepRaised)
  | some r =>
    (events,
      Except.ok
        { step_index := s.step_index + 1
          score := r.score
          snapshot := r.snapshot
          done := r.score.success
          applied := applied })

/-- One iteration of the variant while loop (variant env lines 208-241):
the POST is not guarded by a try/except (a failure raises out of the loop),
a missing or empty `navigate_url` raises `RuntimeError`, otherwise a
`NavigateAction` is applied and `done` is
`bool(score.success or resp_data.get("done", False))`. -/
def variantLoopIter (ev : EvaluatorModel) (agent : Nat → VariantAgentResult)
    (task : Task) (s : LoopState) : List Event × Except EvalExn LoopState :=
  let payload : VariantStepPayload :=
    { task_id := task.id
      step_index := s.step_index
      snapshot_html := s.snapshot.html
      current_url := s.snapshot.url }
  match agent s.step_index with
  | VariantAgentResult.failure =>
    ([Event.variantPostSent payload], Except.error EvalExn.transportError)
  | VariantAgentResult.ok none _ =>
    ([Event.variantPostSent payload], Except.error EvalExn.noNavigateUrl)
  | VariantAgentResult.ok (some u) dn =>
    if u = "" then
      ([Event.variantPostSent payload], Except.error EvalExn.noNavigateUrl)
    else
      let base_action : Option Action := some (Action.navigate u)
      let applied := s.applied ++ [base_action]
      match ev.step applied with
      | none =>
        ([Event.variantPostSent payload, Event.evalStep base_action],
          Except.error EvalExn.stepRaised)
      | some r =>
        ([Event.variantPostSent payload, Event.evalStep base_action],
          Except.ok
            { step_index := s.step_index + 1
              score := r.score
              snapshot := r.snapshot
              done := r.score.success || dn
              applied := applied })

/-- The while loop `while step_index < max_steps and not done`, generic in
the loop body.  The fuel argument is instantiated with `max_steps` at the
call site; since the step index starts at 0 and grows by one per iteration,
that fuel is exactly enough for the guard to close the loop. -/
def runLoopWith (iter : LoopState → List Event × Except EvalExn LoopState)
    (max_steps : Nat) : Nat → LoopState → List Event × Except EvalExn LoopState
  | 0, s => ([], Except.ok s)
  | fuel + 1, s =>
    if s.step_index < max_steps ∧ s.done = false then
      match iter s with
      | (evs, Except.error e) => (evs, Except.error e)
      | (evs, Except.ok s') =>
        let rest := runLoopWith iter max_steps fuel s'
        (evs ++ rest.1, rest.2)
    else ([], Except.ok s)

/-- The result record built at loop exit (`src/env.py` lines 185-194 and the
identical variant lines 251-260): both `score` and `raw_score` are set from
the evaluator raw score. -/
def detailOfState (task : Task) (s : LoopState) : TaskEvaluationDetail :=
  { task_id := task.id
    project_id := task.web_project_id
    score := s.score.raw_score
    raw_score := s.score.raw_score
    success := s.score.success
    tests_passed := s.score.tests_passed
    total_tests := s.score.total_tests
    steps := s.step_index }

/-- `_evaluate_task_with_remote_agent_sync` of `src/env.py`: the HTTP client
is created before the `try`, the loop body runs inside it, and the
`finally` block closes the client (errors swallowed) and the evaluator on
every exit path. -/
def evaluate_task_with_remote_agent_sync (ev : EvaluatorModel)
    (agent : Nat → AgentResult) (task : Task) (max_steps : Nat) :
    List Event × Except EvalExn TaskEvaluationDetail :=
  match ev.reset with
  | none =>
    ([Event.clientCreated, Event.resetCalled,
      Event.sessionClose, Event.evaluatorClose],
      Except.error EvalExn.resetRaised)
  | some first =>
    let r := runLoopWith (loopIter ev agent task) max_steps max_steps
      (initState first)
    (Event.clientCreated :: Event.resetCalled ::
        (r.1 ++ [Event.sessionClose, Event.evaluatorClose]),
      match r.2 with
      | Except.error e => Except.error e
      | Except.ok s => Except.ok (detailOfState task s))

/-- `_evaluate_task_with_remote_agent_sync` of the variant env: the HTTP
client is created inside the `try`, after `evaluator.reset()`.  If reset
raises, the `finally` still runs: `session.close()` raises `NameError`
(swallowed by the inner `try/except`), then `evaluator.close()` runs, so no
client close happens on that path (no client exists) but the evaluator is
always closed. -/
def variant_evaluate_task_with_remote_agent_sync (ev : EvaluatorModel)
    (agent : Nat → VariantAgentResult) (task : Task) (max_steps : Nat) :
    List Event × Except EvalExn TaskEvaluationDetail :=
  match ev.reset with
  | none =>
    ([Event.resetCalled, Event.evaluatorClose], Except.error EvalExn.resetRaised)
  | some first =>
    let r := runLoopWith (variantLoopIter ev agent task) max_steps max_steps
      (initState first)
    (Event.resetCalled :: Event.clientCreated ::
        (r.1 ++ [Event.sessionClose, Event.evaluatorClose]),
      match r.2 with
      | Except.error e => Except.error e
      | Except.ok s => Except.ok (detailOfState task s))

/-- One entry of the `tasks` array in the on-disk JSON file
(`data/autoppia_books_tasks.json`): required keys `id`, `web_project_id`,
`url`, `prompt`, and optional keys with defaults. -/
structure RawTaskEntry where
  id : String
  is_web_real : Option Bool
  web_project_id : String
  url : String
  prompt : String
  tests : Option (List String)
  relevant_data : Option (List (String × String))
deriving Repr, DecidableEq

/-- The Task constructed from one JSON entry (`utils.py` lines 102-110 and
the identical variant lines 175-183). -/
def taskOfEntry (raw : RawTaskEntry) : Task :=
  { id := raw.id
    is_web_real := raw.is_web_real.getD false
    web_project_id := raw.web_project_id
    url := raw.url
    prompt := raw.prompt
    tests := raw.tests.getD []
    relevant_data := raw.relevant_data.getD [] }

/-- Abstraction of the filesystem state seen by the task loaders: whether
the canonical local copy exists, which fallback candidates exist (in search
order), whether the self-healing copy to the canonical location succeeds,
and the `tasks` array of the resolved JSON file. -/
structure TasksFS where
  localExists : Bool
  candidatesExist : List Bool
  copyOk : Bool
  fileTasks : List RawTaskEntry
deriving Repr, DecidableEq

/-- Fatal errors the loaders can raise. -/
inductive LoaderErr where
  | noSource
  | copyFailed
  | noTasks
  | notExactlyOne
deriving Repr, DecidableEq

/-- `_resolve_autobooks_tasks_path` (`utils.py` lines 10-82), shared shape
with the resolution part of the variant loader: use the local copy if
present, else the first existing fallback candidate, copying it to the
canonical location (a failed copy is fatal); no source anywhere is fatal. -/
def resolveTasksPath (fs : TasksFS) : Except LoaderErr Unit :=
  if fs.localExists then Except.ok ()
  else if fs.candidatesExist.any (fun b => b) then
    if fs.copyOk then Except.ok () else Except.error LoaderErr.copyFailed
  else Except.error LoaderErr.noSource

/-- `load_autobooks_tasks` (`utils.py` lines 85-112): resolve the file,
fail if the `tasks` array is empty, otherwise build one Task per entry. -/
def load_autobooks_tasks (fs : TasksFS) : Except LoaderErr (List Task) :=
  match resolveTasksPath fs with
  | Except.error e => Except.error e
  | Except.ok _ =>
    if fs.fileTasks.isEmpty then Except.error LoaderErr.noTasks
    else Except.ok (fs.fileTasks.map taskOfEntry)

/-- The variant loader (`_load_autobooks_task`, variant env lines 88-183):
same resolution shape, but it demands exactly one entry
(`if len(tasks) != 1: raise RuntimeError(...)`). -/
def variant_load_autobooks_task (fs : TasksFS) : Except LoaderErr Task :=
  match resolveTasksPath fs with
  | Except.error e => Except.error e
  | Except.ok _ =>
    match fs.fileTasks with
    | [raw] => Except.ok (taskOfEntry raw)
    | _ => Except.error LoaderErr.notExactlyOne

/-- Value of the `AUTOPPIA_AFFINE_MAX_STEPS` environment variable as seen by
`_get_default_max_steps`: unset (or empty), set but not parseable as an
int, or parsed to an integer. -/
inductive EnvVarValue where
  | unset
  | unparseable
  | value (v : Int)
deriving Repr, DecidableEq

/-- `_get_default_max_steps` (`src/env.py` lines 27-42): the env var must be
a positive int, otherwise the hard-coded default 30 is used. -/
def get_default_max_steps : EnvVarValue → Nat
  | EnvVarValue.unset => 30
  | EnvVarValue.unparseable => 30
  | EnvVarValue.value v => if 0 < v then v.toNat else 30

/-- Body of the `POST /evaluate` request (`EvaluateRequest` pydantic model
of `src/env.py`). -/
structure EvaluateRequest where
  model : String
  base_url : String
  task_id : Option String
  max_steps : Option Int
deriving Repr, DecidableEq

/-- The aggregate response of `POST /evaluate`. -/
structure EvaluateResponse where
  environment : String
  total_score : Rat
  success_rate : Rat
  evaluated : Nat
  details : List TaskEvaluationDetail
deriving Repr, DecidableEq

/-- HTTP error responses the handler can produce (an uncaught exception
from a task evaluation surfaces as a 500, modelled as `internal`). -/
inductive HttpError where
  | badRequest (detail : String)
  | notFound (detail : String)
  | internal (detail : String)
deriving Repr, DecidableEq

/-- `int(request.max_steps or _max_steps)` (`src/env.py` line 221): `None`
and `0` are both falsy in Python, so a requested value of `0` is replaced
by the default before the positivity check. -/
def resolveMaxSteps (requested : Option Int) (defaultMaxSteps : Nat) : Int :=
  match requested with
  | none => (defaultMaxSteps : Int)
  | some v => if v = 0 then (defaultMaxSteps : Int) else v

/-- The sequential per-task evaluation of the handler (`src/env.py` lines
251-261): tasks run one at a time; an exception from a task evaluation
aborts the request after the earlier tasks already ran. -/
def runTasks (evFor : Task → EvaluatorModel)
    (agentFor : Task → Nat → AgentResult) (max_steps : Nat) :
    List Task → List Event × Except EvalExn (List TaskEvaluationDetail)
  | [] => ([], Except.ok [])
  | t :: rest =>
    let r := evaluate_task_with_remote_agent_sync (evFor t) (agentFor t) t
      max_steps
    match r.2 with
    | Except.error e => (r.1, Except.error e)
    | Except.ok d =>
      let rs := runTasks evFor agentFor max_steps rest
      (r.1 ++ rs.1,
        match rs.2 with
        | Except.error e => Except.error e
        | Except.ok ds => Except.ok (d :: ds))

/-- The aggregate response built at `src/env.py` lines 263-273:
`total_score` is the sum of the per-detail scores, `success_rate` is the
success count over the detail count (`0.0` for an empty list), `evaluated`
is the detail count. -/
def mkEvaluateResponse (details : List TaskEvaluationDetail) :
    EvaluateResponse :=
  { environment := "autoppia_affine_env"
    total_score := (details.map TaskEvaluationDetail.score).sum
    success_rate :=
      if details.isEmpty then 0
      else ((details.countP (fun d => d.success) : Rat)) / (details.length : Rat)
    evaluated := details.length
    details := details }

/-- The `POST /evaluate` handler of `src/env.py` (lines 214-273): resolve
`max_steps`, reject non-positive values with 400, load the catalogue (500
on failure or when empty), apply the optional `task_id` filter (404 when it
matches nothing), run the loop per task, aggregate.  The first component is
the concatenated event trace of the task evaluations that ran. -/
def evaluate (defaultMaxSteps : Nat) (fs : TasksFS)
    (evFor : Task → EvaluatorModel) (agentFor : Task → Nat → AgentResult)
    (req : EvaluateRequest) : List Event × Except HttpError EvaluateResponse :=
  let max_steps := resolveMaxSteps req.max_steps defaultMaxSteps
  if max_steps ≤ 0 then
    ([], Except.error (HttpError.badRequest "max_steps must be positive"))
  else
    match load_autobooks_tasks fs with
    | Except.error _ =>
      ([], Except.error (HttpError.internal "Failed to load Autobooks task"))
    | Except.ok tasks =>
      if tasks.isEmpty then
        ([], Except.error (HttpError.internal "No tasks available for evaluation"))
      else
        let runAll := fun (ts : List Task) =>
          let r := runTasks evFor agentFor max_steps.toNat ts
          (r.1,
            match r.2 with
            | Except.error _ =>
              Except.error (HttpError.internal "task evaluation raised")
            | Except.ok ds => Except.ok (mkEvaluateResponse ds))
        match req.task_id with
        | none => runAll tasks
        | some tid =>
          let filtered := tasks.filter (fun t => t.id = tid)
          if filtered.isEmpty then
            ([], Except.error (HttpError.notFound "Task not found"))
          else runAll filtered

/-- Boolean success test for an `Except` value. -/
def isOkE {ε α : Type} : Except ε α → Bool
  | Except.ok _ => true
  | Except.error _ => false

/-- Extract the success value of an `Except`, with a fallback. -/
def okOr {ε α : Type} (e : Except ε α) (a : α) : α :=
  match e with
  | Except.ok x => x
  | Except.error _ => a

/-!
Concrete fixtures used to instantiate the theorems below on closed inputs.
-/

/-- A snapshot with a present URL. -/
def snapA : Snapshot := ⟨"http://books/catalog", "<p>catalog</p>"⟩

/-- A snapshot whose URL is absent (empty string, Python falsy). -/
def snapNoUrl : Snapshot := ⟨"", "<p>start</p>"⟩

/-- A non-successful score. -/
def scoreLow : ScoreDetails := ⟨0, false, 0, 2⟩

/-- A successful score. -/
def scoreWin : ScoreDetails := ⟨1, true, 2, 2⟩

/-- A sample task record. -/
def taskA : Task :=
  ⟨"autobooks-demo-task-1", false, "autobooks", "http://books/home",
    "Open the first book", [], []⟩

/-- Step result with a non-successful score. -/
def resLow : StepResult := ⟨scoreLow, snapA⟩

/-- Step result with a successful score. -/
def resWin : StepResult := ⟨scoreWin, snapA⟩

/-- Evaluator oracle that never reports success and never raises. -/
def evLow : EvaluatorModel := ⟨some resLow, fun _ => some resLow⟩

/-- Evaluator oracle that reports success after every step. -/
def evWin : EvaluatorModel := ⟨some resLow, fun _ => some resWin⟩

/-- Evaluator oracle whose reset snapshot has no URL yet; steps succeed. -/
def evNoUrl : EvaluatorModel := ⟨some ⟨scoreLow, snapNoUrl⟩, fun _ => some resWin⟩

/-- Agent whose every request fails (unreachable endpoint). -/
def agentFail : Nat → AgentResult := fun _ => AgentResult.failure

/-- Agent that answers with a body carrying no `actions` key. -/
def agentNone : Nat → AgentResult := fun _ => AgentResult.ok none false

/-- Agent that proposes a navigate action plus a discarded second action,
after a skipped non-dict item and a skipped unparseable item. -/
def agentList : Nat → AgentResult := fun _ =>
  AgentResult.ok
    (some [RawAction.notDict, RawAction.unparseable,
      RawAction.parsed (Action.navigate "http://books/home"),
      RawAction.parsed (Action.wait 1)])
    false

/-- Variant agent that always sends back a navigate URL and asserts done. -/
def vagentNav : Nat → VariantAgentResult := fun _ =>
  VariantAgentResult.ok (some "http://books/home") true

/-- Variant agent whose every request fails (unreachable endpoint). -/
def vagentFail : Nat → VariantAgentResult := fun _ => VariantAgentResult.failure

/-- A well-formed JSON task entry. -/
def entryA : RawTaskEntry :=
  ⟨"autobooks-demo-task-1", some false, "autobooks", "http://books/home",
    "Open the first book", some [], some []⟩

/-- A second well-formed JSON task entry. -/
def entryB : RawTaskEntry :=
  ⟨"autobooks-demo-task-2-invalid", none, "autobooks", "http://books/home",
    "Buy an unavailable book", none, none⟩

/-- Filesystem with a local catalogue file holding one entry. -/
def fsOne : TasksFS := ⟨true, [], true, [entryA]⟩

/-- Filesystem with a local catalogue file holding two entries. -/
def fsTwo : TasksFS := ⟨true, [], true, [entryA, entryB]⟩

/-- Fallback detail record used when projecting concrete run results. -/
def dummyDetail : TaskEvaluationDetail := ⟨"", "", 0, 0, false, 0, 0, 0⟩

/-- Request with `max_steps = 0`. -/
def reqZero : EvaluateRequest := ⟨"m", "http://agent/act", none, some 0⟩

/-- Request with a negative `max_steps`. -/
def reqNeg : EvaluateRequest := ⟨"m", "http://agent/act", none, some (-1)⟩

/-- Request filtering on a task id absent from the catalogue. -/
def reqMissing : EvaluateRequest := ⟨"m", "http://agent/act", some "missing", some 5⟩

/-- Recognizer for evaluator-step events in a trace. -/
def isStepEvent : Event → Bool
  | Event.evalStep _ => true
  | _ => false

/-!
Supporting lemmas about the loop combinator and the two loop bodies.
-/

theorem loopIter_ok (ev : EvaluatorModel) (agent : Nat → AgentResult)
    (task : Task) (s : LoopState) (evs : List Event) (s' : LoopState)
    (h : loopIter ev agent task s = (evs, Except.ok s')) :
    s'.step_index = s.step_index + 1 ∧ s'.done = s'.score.success := by
  simp only [loopIter] at h
  rcases hr : ev.step (s.applied ++ [(parseActions (extractRawActions
      (agent s.step_index))).head?]) with _ | r
  · rw [hr] at h
    simp at h
  · rw [hr] at h
    simp only [Prod.mk.injEq, Except.ok.injEq] at h
    rw [← h.2]
    exact ⟨rfl, rfl⟩

theorem variantLoopIter_ok (ev : EvaluatorModel)
    (agent : Nat → VariantAgentResult) (task : Task) (s : LoopState)
    (evs : List Event) (s' : LoopState)
    (h : variantLoopIter ev agent task s = (evs, Except.ok s')) :
    s'.step_index = s.step_index + 1 := by
  simp only [variantLoopIter] at h
  rcases ha : agent s.step_index with _ | ⟨u, dn⟩
  · rw [ha] at h; simp at h
  · rw [ha] at h
    rcases u with _ | u
    · simp at h
    · simp only at h
      by_cases hu : u = ""
      · rw [if_pos hu] at h; simp at h
      · rw [if_neg hu] at h
        rcases hr : ev.step (s.applied ++ [some (Action.navigate u)]) with _ | r
        · rw [hr] at h; simp at h
        · rw [hr] at h
          simp only [Prod.mk.injEq, Except.ok.injEq] at h
          rw [← h.2]

theorem variantLoopIter_done (ev : EvaluatorModel)
    (agent : Nat → VariantAgentResult) (task : Task) (s : LoopState)
    (evs : List Event) (s' : LoopState) (u : String) (dn : Bool)
    (ha : agent s.step_index = VariantAgentResult.ok (some u) dn)
    (h : variantLoopIter ev agent task s = (evs, Except.ok s')) :
    s'.done = (s'.score.success || dn) := by
  simp only [variantLoopIter] at h
  rw [ha] at h
  simp only at h
  by_cases hu : u = ""
  · rw [if_pos hu] at h; simp at h
  · rw [if_neg hu] at h
    rcases hr : ev.step (s.applied ++ [some (Action.navigate u)]) with _ | r
    · rw [hr] at h; simp at h
    · rw [hr] at h
      simp only [Prod.mk.injEq, Except.ok.injEq] at h
      rw [← h.2]

theorem runLoopWith_ok_le
    (iter : LoopState → List Event × Except EvalExn LoopState) (m : Nat)
    (hinc : ∀ s evs s', iter s = (evs, Except.ok s') →
      s'.step_index = s.step_index + 1) :
    ∀ fuel s sf, (runLoopWith iter m fuel s).2 = Except.ok sf →
      s.step_index ≤ sf.step_index ∧ (s.step_index ≤ m → sf.step_index ≤ m) := by
  intro fuel
  induction fuel with
  | zero =>
    intro s sf h
    simp only [runLoopWith, Except.ok.injEq] at h
    rw [← h]
    exact ⟨Nat.le_refl _, fun hm => hm⟩
  | succ fuel ih =>
    intro s sf h
    simp only [runLoopWith] at h
    by_cases hg : s.step_index < m ∧ s.done = false
    · rw [if_pos hg] at h
      rcases hi : iter s with ⟨evs, r⟩
      rw [hi] at h
      rcases r with e | s'
      · simp at h
      · simp only at h
        have hstep := hinc s evs s' hi
        have := ih s' sf h
        constructor
        · omega
        · intro _
          exact this.2 (by omega)
    · rw [if_neg hg] at h
      simp only [Except.ok.injEq] at h
      rw [← h]
      exact ⟨Nat.le_refl _, fun hm => hm⟩

theorem runLoopWith_ok_exit
    (iter : LoopState → List Event × Except EvalExn LoopState) (m : Nat)
    (hinc : ∀ s evs s', iter s = (evs, Except.ok s') →
      s'.step_index = s.step_index + 1) :
    ∀ fuel s sf, m ≤ s.step_index + fuel →
      (runLoopWith iter m fuel s).2 = Except.ok sf →
      sf.done = true ∨ m ≤ sf.step_index := by
  intro fuel
  induction fuel with
  | zero =>
    intro s sf hfuel h
    simp only [runLoopWith, Except.ok.injEq] at h
    rw [← h]
    right
    omega
  | succ fuel ih =>
    intro s sf hfuel h
    simp only [runLoopWith] at h
    by_cases hg : s.step_index < m ∧ s.done = false
    · rw [if_pos hg] at h
      rcases hi : iter s with ⟨evs, r⟩
      rw [hi] at h
      rcases r with e | s'
      · simp at h
      · simp only at h
        have hstep := hinc s evs s' hi
        exact ih s' sf (by omega) h
    · rw [if_neg hg] at h
      simp only [Except.ok.injEq] at h
      rw [← h]
      rcases Decidable.not_and_iff_or_not.mp hg with hlt | hdone
      · right; omega
      · left
        cases hd : s.done
        · exact absurd hd hdone
        · rfl

theorem runLoopWith_preserve
    (iter : LoopState → List Event × Except EvalExn LoopState) (m : Nat)
    (P : LoopState → Prop)
    (hiter : ∀ s evs s', iter s = (evs, Except.ok s') → P s') :
    ∀ fuel s sf, P s → (runLoopWith iter m fuel s).2 = Except.ok sf → P sf := by
  intro fuel
  induction fuel with
  | zero =>
    intro s sf hP h
    simp only [runLoopWith, Except.ok.injEq] at h
    rw [← h]; exact hP
  | succ fuel ih =>
    intro s sf hP h
    simp only [runLoopWith] at h
    by_cases hg : s.step_index < m ∧ s.done = false
    · rw [if_pos hg] at h
      rcases hi : iter s with ⟨evs, r⟩
      rw [hi] at h
      rcases r with e | s'
      · simp at h
      · simp only at h
        exact ih s' sf (hiter s evs s' hi) h
    · rw [if_neg hg] at h
      simp only [Except.ok.injEq] at h
      rw [← h]; exact hP

theorem run_ok_inv (ev : EvaluatorModel) (agent : Nat → AgentResult)
    (task : Task) (m : Nat) (d : TaskEvaluationDetail)
    (h : (evaluate_task_with_remote_agent_sync ev agent task m).2 = Except.ok d) :
    ∃ first sf, ev.reset = some first ∧
      (runLoopWith (loopIter ev agent task) m m (initState first)).2 =
        Except.ok sf ∧
      d = detailOfState task sf := by
  simp only [evaluate_task_with_remote_agent_sync] at h
  rcases hr : ev.reset with _ | first
  · rw [hr] at h; simp at h
  · rw [hr] at h
    simp only at h
    rcases hl : (runLoopWith (loopIter ev agent task) m m (initState first)).2
      with e | sf
    · rw [hl] at h; simp at h
    · rw [hl] at h
      simp only [Except.ok.injEq] at h
      exact ⟨first, sf, rfl, hl, h.symm⟩

theorem variant_run_ok_inv (ev : EvaluatorModel)
    (agent : Nat → VariantAgentResult) (task : Task) (m : Nat)
    (d : TaskEvaluationDetail)
    (h : (variant_evaluate_task_with_remote_agent_sync ev agent task m).2 =
      Except.ok d) :
    ∃ first sf, ev.reset = some first ∧
      (runLoopWith (variantLoopIter ev agent task) m m (initState first)).2 =
        Except.ok sf ∧
      d = detailOfState task sf := by
  simp only [variant_evaluate_task_with_remote_agent_sync] at h
  rcases hr : ev.reset with _ | first
  · rw [hr] at h; simp at h
  · rw [hr] at h
    simp only at h
    rcases hl : (runLoopWith (variantLoopIter ev agent task) m m
        (initState first)).2 with e | sf
    · rw [hl] at h; simp at h
    · rw [hl] at h
      simp only [Except.ok.injEq] at h
      exact ⟨first, sf, rfl, hl, h.symm⟩

/-!
Claim theorems.
-/

/-- C3: after each evaluator step, the done flag is true exactly when the
evaluator ScoreDetails reports success OR, in the variant whose agent
response carries a done flag, when the agent asserts done: the main loop
sets `done = bool(score.success)` (ignoring any done field of the
response), the variant sets
`done = bool(score.success or resp_data.get("done", False))`, so either
signal alone terminates the variant loop. -/
theorem c3_done_flag (ev : EvaluatorModel) (agent : Nat → AgentResult)
    (vagent : Nat → VariantAgentResult) (task : Task) (s : LoopState)
    (evs evs' : List Event) (s1 s2 : LoopState) (u : String) (dn : Bool)
    (h1 : loopIter ev agent task s = (evs, Except.ok s1))
    (h2 : vagent s.step_index = VariantAgentResult.ok (some u) dn)
    (h3 : variantLoopIter ev vagent task s = (evs', Except.ok s2)) :
    s1.done = s1.score.success ∧ s2.done = (s2.score.success || dn) :=
  ⟨(loopIter_ok ev agent task s evs s1 h1).2,
    variantLoopIter_done ev vagent task s evs' s2 u dn h2 h3⟩

/-- Witness for C3 on concrete inputs: one main-loop step with an
action-list agent and one variant-loop step with a navigating agent that
asserts done. -/
theorem c3_done_flag_witness :
    (okOr (loopIter evWin agentList taskA (initState resLow)).2
        (initState resLow)).done =
      (okOr (loopIter evWin agentList taskA (initState resLow)).2
        (initState resLow)).score.success ∧
    (okOr (variantLoopIter evWin vagentNav taskA (initState resLow)).2
        (initState resLow)).done =
      ((okOr (variantLoopIter evWin vagentNav taskA (initState resLow)).2
        (initState resLow)).score.success || true) :=
  c3_done_flag evWin agentList vagentNav taskA (initState resLow) _ _ _ _
    "http://books/home" true rfl rfl rfl

/-- C4: for a task evaluation with positive max_steps, the step counter
starts at 0 and each loop iteration (of either loop body) increments it by
exactly one, so it is monotonically non-decreasing; a normally returned
detail satisfies steps at most max_steps, and each loop stopped because
done became true or because the counter reached max_steps: in the main
loop done means the final score reported success, and in the variant the
final loop state behind the returned detail has done true or its counter
equal to max_steps. -/
theorem c4_step_counter (ev : EvaluatorModel) (agent : Nat → AgentResult)
    (vagent : Nat → VariantAgentResult) (task : Task) (m : Nat) (hm : 0 < m)
    (d d' : TaskEvaluationDetail)
    (hok : (evaluate_task_with_remote_agent_sync ev agent task m).2 =
      Except.ok d)
    (hok' : (variant_evaluate_task_with_remote_agent_sync ev vagent task m).2 =
      Except.ok d') :
    d.steps ≤ m ∧ (d.success = true ∨ d.steps = m) ∧ d'.steps ≤ m ∧
    (∃ first' sf', ev.reset = some first' ∧
      (runLoopWith (variantLoopIter ev vagent task) m m
        (initState first')).2 = Except.ok sf' ∧
      d'.steps = sf'.step_index ∧ (sf'.done = true ∨ sf'.step_index = m)) ∧
    (∀ s evs s', loopIter ev agent task s = (evs, Except.ok s') →
      s'.step_index = s.step_index + 1) ∧
    (∀ s evs s', variantLoopIter ev vagent task s = (evs, Except.ok s') →
      s'.step_index = s.step_index + 1) := by
  have hinc : ∀ s evs s', loopIter ev agent task s = (evs, Except.ok s') →
      s'.step_index = s.step_index + 1 :=
    fun s evs s' h => (loopIter_ok ev agent task s evs s' h).1
  have hincv : ∀ s evs s',
      variantLoopIter ev vagent task s = (evs, Except.ok s') →
      s'.step_index = s.step_index + 1 :=
    fun s evs s' h => variantLoopIter_ok ev vagent task s evs s' h
  obtain ⟨first, sf, hreset, hloop, hd⟩ := run_ok_inv ev agent task m d hok
  obtain ⟨first', sf', hreset', hloop', hd'⟩ :=
    variant_run_ok_inv ev vagent task m d' hok'
  have hle := runLoopWith_ok_le (loopIter ev agent task) m hinc m
    (initState first) sf hloop
  have hle' := runLoopWith_ok_le (variantLoopIter ev vagent task) m hincv m
    (initState first') sf' hloop'
  have hexit := runLoopWith_ok_exit (loopIter ev agent task) m hinc m
    (initState first) sf (by simp [initState]) hloop
  have hpres := runLoopWith_preserve (loopIter ev agent task) m
    (fun s => s.done = true → s.score.success = true)
    (fun s evs s' h => by
      show s'.done = true → s'.score.success = true
      rw [(loopIter_ok ev agent task s evs s' h).2]
      exact fun hsucc => hsucc)
    m (initState first) sf (by simp [initState]) hloop
  have hsteps : d.steps = sf.step_index := by rw [hd]; rfl
  have hsucc : d.success = sf.score.success := by rw [hd]; rfl
  have hsteps' : d'.steps = sf'.step_index := by rw [hd']; rfl
  have h0 : (initState first).step_index = 0 := rfl
  have h0' : (initState first').step_index = 0 := rfl
  have hexitv := runLoopWith_ok_exit (variantLoopIter ev vagent task) m hincv
    m (initState first') sf' (by simp [initState]) hloop'
  refine ⟨?_, ?_, ?_, ?_, hinc, hincv⟩
  · rw [hsteps]
    exact hle.2 (by omega)
  · rcases hexit with hdone | hreach
    · left
      rw [hsucc]
      exact hpres hdone
    · right
      have := hle.2 (by omega)
      omega
  · rw [hsteps']
    exact hle'.2 (by omega)
  · refine ⟨first', sf', hreset', hloop', hsteps', ?_⟩
    rcases hexitv with hdone | hreach
    · left
      exact hdone
    · right
      have := hle'.2 (by omega)
      omega

/-- Witness for C4 on concrete inputs: both loops run one successful step
with max_steps 5. -/
theorem c4_step_counter_witness :
    (okOr (evaluate_task_with_remote_agent_sync evWin agentList taskA 5).2
        dummyDetail).steps ≤ 5 ∧
    ((okOr (evaluate_task_with_remote_agent_sync evWin agentList taskA 5).2
        dummyDetail).success = true ∨
      (okOr (evaluate_task_with_remote_agent_sync evWin agentList taskA 5).2
        dummyDetail).steps = 5) ∧
    (okOr (variant_evaluate_task_with_remote_agent_sync evWin vagentNav
        taskA 5).2 dummyDetail).steps ≤ 5 ∧
    (∃ first' sf', evWin.reset = some first' ∧
      (runLoopWith (variantLoopIter evWin vagentNav taskA) 5 5
        (initState first')).2 = Except.ok sf' ∧
      (okOr (variant_evaluate_task_with_remote_agent_sync evWin vagentNav
        taskA 5).2 dummyDetail).steps = sf'.step_index ∧
      (sf'.done = true ∨ sf'.step_index = 5)) ∧
    (∀ s evs s', loopIter evWin agentList taskA s = (evs, Except.ok s') →
      s'.step_index = s.step_index + 1) ∧
    (∀ s evs s', variantLoopIter evWin vagentNav taskA s =
      (evs, Except.ok s') → s'.step_index = s.step_index + 1) :=
  c4_step_counter evWin agentList vagentNav taskA 5 (by decide) _ _ rfl rfl

/-- C8: resource cleanup is unconditional.  In the main loop the HTTP
client close and the evaluator close appear in the trace on every path
(normal exit, agent failure, evaluator step or reset raising).  In the
variant the evaluator close appears on every path; the client close
appears exactly when reset returned (when reset raises, the client was
never created, and the NameError raised by the cleanup attempt is
swallowed before the evaluator is closed). -/
theorem c8_cleanup (ev : EvaluatorModel) (agent : Nat → AgentResult)
    (vagent : Nat → VariantAgentResult) (task : Task) (m : Nat) :
    Event.sessionClose ∈ (evaluate_task_with_remote_agent_sync ev agent
      task m).1 ∧
    Event.evaluatorClose ∈ (evaluate_task_with_remote_agent_sync ev agent
      task m).1 ∧
    Event.evaluatorClose ∈ (variant_evaluate_task_with_remote_agent_sync ev
      vagent task m).1 ∧
    (Event.sessionClose ∈ (variant_evaluate_task_with_remote_agent_sync ev
      vagent task m).1 ↔ (ev.reset).isSome = true) := by
  rcases hr : ev.reset with _ | first <;>
    simp [evaluate_task_with_remote_agent_sync,
      variant_evaluate_task_with_remote_agent_sync, hr]

/-- C10: every detail either loop returns has score equal to raw_score:
both fields are assigned `float(score.raw_score)` at loop exit. -/
theorem c10_score_eq_raw (ev : EvaluatorModel) (agent : Nat → AgentResult)
    (vagent : Nat → VariantAgentResult) (task : Task) (m : Nat)
    (d d' : TaskEvaluationDetail)
    (h : (evaluate_task_with_remote_agent_sync ev agent task m).2 =
      Except.ok d)
    (h' : (variant_evaluate_task_with_remote_agent_sync ev vagent task m).2 =
      Except.ok d') :
    d.score = d.raw_score ∧ d'.score = d'.raw_score := by
  obtain ⟨first, sf, _, _, hd⟩ := run_ok_inv ev agent task m d h
  obtain ⟨first', sf', _, _, hd'⟩ := variant_run_ok_inv ev vagent task m d' h'
  rw [hd, hd']
  exact ⟨rfl, rfl⟩

/-- Witness for C10 on concrete runs of both loops. -/
theorem c10_score_eq_raw_witness :
    (okOr (evaluate_task_with_remote_agent_sync evWin agentList taskA 2).2
        dummyDetail).score =
      (okOr (evaluate_task_with_remote_agent_sync evWin agentList taskA 2).2
        dummyDetail).raw_score ∧
    (okOr (variant_evaluate_task_with_remote_agent_sync evWin vagentNav
        taskA 2).2 dummyDetail).score =
      (okOr (variant_evaluate_task_with_remote_agent_sync evWin vagentNav
        taskA 2).2 dummyDetail).raw_score :=
  c10_score_eq_raw evWin agentList vagentNav taskA 2 _ _ rfl rfl

theorem runLoopWith_noop_all
    (iter : LoopState → List Event × Except EvalExn LoopState) (m : Nat)
    (hiter : ∀ s, s.done = false → ∃ evs s', iter s = (evs, Except.ok s') ∧
      s'.step_index = s.step_index + 1 ∧ s'.done = false ∧
      evs.filter isStepEvent = [Event.evalStep none]) :
    ∀ fuel s, s.done = false → s.step_index ≤ m → m ≤ s.step_index + fuel →
      ∃ evs sf, runLoopWith iter m fuel s = (evs, Except.ok sf) ∧
        sf.step_index = m ∧
        evs.filter isStepEvent =
          List.replicate (m - s.step_index) (Event.evalStep none) := by
  intro fuel
  induction fuel with
  | zero =>
    intro s hdone hle hfuel
    have hm : s.step_index = m := by omega
    refine ⟨[], s, ?_, hm, ?_⟩
    · simp only [runLoopWith]
    · simp [hm]
  | succ fuel ih =>
    intro s hdone hle hfuel
    by_cases hlt : s.step_index < m
    · obtain ⟨evs, s', hi, hstep, hdone', hfilter⟩ := hiter s hdone
      obtain ⟨evs', sf, hrun, hsf, hfilter'⟩ :=
        ih s' hdone' (by omega) (by omega)
      refine ⟨evs ++ evs', sf, ?_, hsf, ?_⟩
      · simp only [runLoopWith]
        rw [if_pos ⟨hlt, hdone⟩, hi]
        simp only
        rw [hrun]
      · rw [List.filter_append, hfilter, hfilter', hstep]
        have : m - s.step_index = (m - (s.step_index + 1)) + 1 := by omega
        rw [this, List.replicate_succ]
        rfl
    · have hm : s.step_index = m := by omega
      refine ⟨[], s, ?_, hm, ?_⟩
      · simp only [runLoopWith]
        rw [if_neg (by omega : ¬(s.step_index < m ∧ s.done = false))]
      · simp [hm]

/-- C2 counterexample: the claim is stated for both loop implementations,
but the variant loop does not guard the agent POST with a try/except: with
an unreachable agent (every request fails) and a healthy evaluator, the
variant task evaluation raises out of the loop at the first step instead
of running NOOP steps to max_steps = 3. -/
theorem c2_counterexample :
    vagentFail 0 = VariantAgentResult.failure ∧
    (variant_evaluate_task_with_remote_agent_sync evLow vagentFail taskA 3).2 =
      Except.error EvalExn.transportError :=
  ⟨rfl, rfl⟩

/-- C2 (amended): in the main loop (`src/env.py`), any transport error,
non-success HTTP status, or malformed response body is caught and treated
as the agent proposing zero actions, and with no action obtained the
evaluator is advanced with a NOOP (None) step; with an unreachable agent
and an evaluator that keeps answering without reporting success, the loop
runs to exactly max_steps NOOP steps and returns normally.  (The variant
loop instead lets a transport error propagate and abort the task.) -/
theorem c2_main_loop_absorbs_failures (ev : EvaluatorModel)
    (agent : Nat → AgentResult) (task : Task) (m : Nat) (first : StepResult)
    (hreset : ev.reset = some first)
    (hstep : ∀ l, ∃ r, ev.step l = some r ∧ r.score.success = false)
    (hagent : ∀ i, agent i = AgentResult.failure) :
    ∃ evs d,
      evaluate_task_with_remote_agent_sync ev agent task m =
        (evs, Except.ok d) ∧
      d.steps = m ∧
      evs.filter isStepEvent = List.replicate m (Event.evalStep none) := by
  have hiter : ∀ s, s.done = false → ∃ evs s',
      loopIter ev agent task s = (evs, Except.ok s') ∧
      s'.step_index = s.step_index + 1 ∧ s'.done = false ∧
      evs.filter isStepEvent = [Event.evalStep none] := by
    intro s _
    obtain ⟨r, hr, hsucc⟩ := hstep (s.applied ++ [none])
    refine ⟨[Event.postSent (buildPayload task s.snapshot s.step_index),
      Event.evalStep none],
      { step_index := s.step_index + 1
        score := r.score
        snapshot := r.snapshot
        done := r.score.success
        applied := s.applied ++ [none] }, ?_, rfl, hsucc, rfl⟩
    simp only [loopIter, hagent s.step_index, extractRawActions, parseActions,
      List.filterMap_nil, List.head?_nil]
    rw [hr]
  obtain ⟨evs, sf, hrun, hsf, hfilter⟩ :=
    runLoopWith_noop_all (loopIter ev agent task) m hiter m (initState first)
      rfl (by simp [initState]) (by simp [initState])
  refine ⟨Event.clientCreated :: Event.resetCalled ::
      (evs ++ [Event.sessionClose, Event.evaluatorClose]),
    detailOfState task sf, ?_, ?_, ?_⟩
  · simp only [evaluate_task_with_remote_agent_sync, hreset, hrun]
  · show sf.step_index = m
    exact hsf
  · simp only [List.filter_cons, List.filter_append, hfilter]
    have h0 : (initState first).step_index = 0 := rfl
    rw [h0] at hfilter ⊢
    simp [isStepEvent, hfilter]

/-- Witness for C2 on concrete inputs: unreachable agent, never-successful
evaluator, max_steps 2. -/
theorem c2_main_loop_absorbs_failures_witness :
    ∃ evs d,
      evaluate_task_with_remote_agent_sync evLow agentFail taskA 2 =
        (evs, Except.ok d) ∧
      d.steps = 2 ∧
      evs.filter isStepEvent = List.replicate 2 (Event.evalStep none) :=
  c2_main_loop_absorbs_failures evLow agentFail taskA 2 resLow rfl
    (fun _ => ⟨resLow, rfl, rfl⟩) (fun _ => rfl)

/-- C6: the main loop parses the agent response into zero or more actions,
skipping each non-dict or unparseable item individually while keeping the
rest of the list in order, and applies exactly one action to the
evaluator: the iteration trace contains exactly one evaluator-step event,
carrying the first successfully parsed action (`actions[0]`, or NOOP when
none parsed); any further parsed actions are discarded. -/
theorem c6_first_action (l : List RawAction) (a : Action)
    (ev : EvaluatorModel) (agent : Nat → AgentResult) (task : Task)
    (s : LoopState) (raws : List RawAction) (dn : Bool)
    (hresp : agent s.step_index = AgentResult.ok (some raws) dn) :
    parseActions (RawAction.notDict :: l) = parseActions l ∧
    parseActions (RawAction.unparseable :: l) = parseActions l ∧
    parseActions (RawAction.parsed a :: l) = a :: parseActions l ∧
    (loopIter ev agent task s).1 =
      [Event.postSent (buildPayload task s.snapshot s.step_index),
        Event.evalStep (parseActions raws).head?] := by
  refine ⟨by simp [parseActions], by simp [parseActions],
    by simp [parseActions], ?_⟩
  simp only [loopIter, hresp, extractRawActions]
  rcases hr : ev.step (s.applied ++ [(parseActions raws).head?]) with _ | r <;>
    simp [hr]

/-- Witness for C6 on a concrete response list with one skipped non-dict
item, one skipped unparseable item, and two parsed actions of which only
the first is applied. -/
theorem c6_first_action_witness :
    parseActions (RawAction.notDict :: [RawAction.parsed (Action.wait 1)]) =
      parseActions [RawAction.parsed (Action.wait 1)] ∧
    parseActions (RawAction.unparseable ::
        [RawAction.parsed (Action.wait 1)]) =
      parseActions [RawAction.parsed (Action.wait 1)] ∧
    parseActions (RawAction.parsed (Action.navigate "http://books/home") ::
        [RawAction.parsed (Action.wait 1)]) =
      Action.navigate "http://books/home" ::
        parseActions [RawAction.parsed (Action.wait 1)] ∧
    (loopIter evWin agentList taskA (initState resLow)).1 =
      [Event.postSent (buildPayload taskA (initState resLow).snapshot
          (initState resLow).step_index),
        Event.evalStep (parseActions [RawAction.notDict,
          RawAction.unparseable,
          RawAction.parsed (Action.navigate "http://books/home"),
          RawAction.parsed (Action.wait 1)]).head?] :=
  c6_first_action [RawAction.parsed (Action.wait 1)]
    (Action.navigate "http://books/home") evWin agentList taskA
    (initState resLow) _ false rfl

/-- C9 counterexample: the claim is stated for both loop implementations,
but the variant loop sends the snapshot URL verbatim with no fallback: on a
task whose canonical URL is nonempty, with a reset snapshot whose URL is
absent (empty), the variant sends current_url = "" instead of the task
URL. -/
theorem c9_counterexample :
    taskA.url = "http://books/home" ∧
    snapNoUrl.url = "" ∧
    evNoUrl.reset = some ⟨scoreLow, snapNoUrl⟩ ∧
    Event.variantPostSent
        ⟨"autobooks-demo-task-1", 0, "<p>start</p>", ""⟩ ∈
      (variant_evaluate_task_with_remote_agent_sync evNoUrl vagentNav
        taskA 3).1 := by
  refine ⟨rfl, rfl, rfl, ?_⟩
  decide

/-- C9 (amended): every iteration of the main loop sends a request whose
URL is the current snapshot URL with fallback to the task canonical URL
when the snapshot URL is absent (empty), together with the task id, the
snapshot HTML and the step index; the variant loop sends the snapshot URL
verbatim (no fallback), with the task id, snapshot HTML and step index. -/
theorem c9_payload_fields (ev : EvaluatorModel) (agent : Nat → AgentResult)
    (vagent : Nat → VariantAgentResult) (task : Task) (s : LoopState) :
    (loopIter ev agent task s).1.head? =
      some (Event.postSent (buildPayload task s.snapshot s.step_index)) ∧
    (buildPayload task s.snapshot s.step_index).url =
      (if s.snapshot.url = "" then task.url else s.snapshot.url) ∧
    (buildPayload task s.snapshot s.step_index).task_id = task.id ∧
    (buildPayload task s.snapshot s.step_index).snapshot_html =
      s.snapshot.html ∧
    (buildPayload task s.snapshot s.step_index).step_index = s.step_index ∧
    (variantLoopIter ev vagent task s).1.head? =
      some (Event.variantPostSent
        ⟨task.id, s.step_index, s.snapshot.html, s.snapshot.url⟩) := by
  refine ⟨?_, rfl, rfl, ?_, rfl, ?_⟩
  · simp only [loopIter]
    rcases hr : ev.step (s.applied ++ [(parseActions (extractRawActions
        (agent s.step_index))).head?]) with _ | r <;> simp [hr]
  · show orElseStr s.snapshot.html "" = s.snapshot.html
    unfold orElseStr
    split
    · rename_i hh
      rw [hh]
    · rfl
  · simp only [variantLoopIter]
    rcases ha : vagent s.step_index with _ | ⟨u, dn⟩
    · simp
    · rcases u with _ | u
      · simp
      · simp only
        split
        · simp
        · rcases hr : ev.step (s.applied ++ [some (Action.navigate u)])
            with _ | r <;> simp [hr]

theorem evaluate_ok_inv (dms : Nat) (fs : TasksFS)
    (evFor : Task → EvaluatorModel) (agentFor : Task → Nat → AgentResult)
    (req : EvaluateRequest) (resp : EvaluateResponse)
    (h : (evaluate dms fs evFor agentFor req).2 = Except.ok resp) :
    ∃ ds, resp = mkEvaluateResponse ds := by
  simp only [evaluate] at h
  by_cases hms : resolveMaxSteps req.max_steps dms ≤ 0
  · rw [if_pos hms] at h; simp at h
  · rw [if_neg hms] at h
    rcases hl : load_autobooks_tasks fs with e | tasks
    · rw [hl] at h; simp at h
    · rw [hl] at h
      simp only at h
      by_cases hemp : tasks.isEmpty
      · rw [if_pos hemp] at h; simp at h
      · rw [if_neg hemp] at h
        rcases ht : req.task_id with _ | tid
        · rw [ht] at h
          simp only at h
          rcases hr : (runTasks evFor agentFor
              (resolveMaxSteps req.max_steps dms).toNat tasks).2 with e | ds
          · rw [hr] at h; simp at h
          · rw [hr] at h
            simp only [Except.ok.injEq] at h
            exact ⟨ds, h.symm⟩
        · rw [ht] at h
          simp only at h
          by_cases hfe : (tasks.filter (fun t => t.id = tid)).isEmpty
          · rw [if_pos hfe] at h; simp at h
          · rw [if_neg hfe] at h
            simp only at h
            rcases hr : (runTasks evFor agentFor
                (resolveMaxSteps req.max_steps dms).toNat
                (tasks.filter (fun t => t.id = tid))).2 with e | ds
            · rw [hr] at h; simp at h
            · rw [hr] at h
              simp only [Except.ok.injEq] at h
              exact ⟨ds, h.symm⟩

/-- C5: every successful response of the handler satisfies: total_score is
the arithmetic sum of the per-task scores in details (not an average),
success_rate is the number of successful details divided by the number of
details (0 for an empty list), and evaluated is the number of details. -/
theorem c5_aggregation (dms : Nat) (fs : TasksFS)
    (evFor : Task → EvaluatorModel) (agentFor : Task → Nat → AgentResult)
    (req : EvaluateRequest) (resp : EvaluateResponse)
    (hok : (evaluate dms fs evFor agentFor req).2 = Except.ok resp) :
    resp.total_score = (resp.details.map TaskEvaluationDetail.score).sum ∧
    (resp.details = [] → resp.success_rate = 0) ∧
    (resp.details ≠ [] → resp.success_rate =
      ((resp.details.countP (fun d => d.success) : Rat)) /
        ((resp.details.length : Rat))) ∧
    resp.evaluated = resp.details.length := by
  obtain ⟨ds, hds⟩ := evaluate_ok_inv dms fs evFor agentFor req resp hok
  rw [hds]
  refine ⟨rfl, ?_, ?_, rfl⟩
  · intro hnil
    simp only [mkEvaluateResponse] at hnil ⊢
    rw [hnil]
    rfl
  · intro hne
    simp only [mkEvaluateResponse] at hne ⊢
    rw [if_neg (by simpa using hne)]

/-- Witness for C5 on a concrete two-task catalogue with a winning
evaluator. -/
theorem c5_aggregation_witness :
    (okOr (evaluate 30 fsTwo (fun _ => evWin) (fun _ => agentList)
        ⟨"m", "http://agent/act", none, some 5⟩).2
      (mkEvaluateResponse [])).total_score =
      (((okOr (evaluate 30 fsTwo (fun _ => evWin) (fun _ => agentList)
        ⟨"m", "http://agent/act", none, some 5⟩).2
          (mkEvaluateResponse [])).details.map
        TaskEvaluationDetail.score).sum) ∧
    ((okOr (evaluate 30 fsTwo (fun _ => evWin) (fun _ => agentList)
        ⟨"m", "http://agent/act", none, some 5⟩).2
      (mkEvaluateResponse [])).details = [] →
      (okOr (evaluate 30 fsTwo (fun _ => evWin) (fun _ => agentList)
        ⟨"m", "http://agent/act", none, some 5⟩).2
        (mkEvaluateResponse [])).success_rate = 0) ∧
    ((okOr (evaluate 30 fsTwo (fun _ => evWin) (fun _ => agentList)
        ⟨"m", "http://agent/act", none, some 5⟩).2
      (mkEvaluateResponse [])).details ≠ [] →
      (okOr (evaluate 30 fsTwo (fun _ => evWin) (fun _ => agentList)
        ⟨"m", "http://agent/act", none, some 5⟩).2
        (mkEvaluateResponse [])).success_rate =
        (((okOr (evaluate 30 fsTwo (fun _ => evWin) (fun _ => agentList)
          ⟨"m", "http://agent/act", none, some 5⟩).2
            (mkEvaluateResponse [])).details.countP
          (fun d => d.success) : Rat)) /
          (((okOr (evaluate 30 fsTwo (fun _ => evWin) (fun _ => agentList)
            ⟨"m", "http://agent/act", none, some 5⟩).2
            (mkEvaluateResponse [])).details.length : Rat))) ∧
    (okOr (evaluate 30 fsTwo (fun _ => evWin) (fun _ => agentList)
        ⟨"m", "http://agent/act", none, some 5⟩).2
      (mkEvaluateResponse [])).evaluated =
      (okOr (evaluate 30 fsTwo (fun _ => evWin) (fun _ => agentList)
        ⟨"m", "http://agent/act", none, some 5⟩).2
        (mkEvaluateResponse [])).details.length :=
  c5_aggregation 30 fsTwo (fun _ => evWin) (fun _ => agentList)
    ⟨"m", "http://agent/act", none, some 5⟩ _ rfl

theorem load_ok_iff (fs : TasksFS) :
    isOkE (load_autobooks_tasks fs) = true ↔
      (resolveTasksPath fs = Except.ok () ∧ fs.fileTasks ≠ []) := by
  unfold load_autobooks_tasks
  rcases hres : resolveTasksPath fs with e | u
  · simp only [isOkE]
    constructor
    · intro hc; exact absurd hc (by simp)
    · rintro ⟨hc, -⟩; exact absurd hc (by simp)
  · cases u
    by_cases hemp : fs.fileTasks.isEmpty
    · rw [if_pos hemp]
      simp only [isOkE]
      constructor
      · intro hc; exact absurd hc (by simp)
      · rintro ⟨-, hne⟩
        exact absurd (List.isEmpty_iff.mp hemp) hne
    · rw [if_neg hemp]
      simp only [isOkE, true_iff]
      exact ⟨by trivial, fun hnil => hemp (by simp [hnil])⟩

theorem load_noSource_iff (fs : TasksFS) :
    load_autobooks_tasks fs = Except.error LoaderErr.noSource ↔
      (fs.localExists = false ∧
        fs.candidatesExist.any (fun b => b) = false) := by
  unfold load_autobooks_tasks resolveTasksPath
  by_cases hloc : fs.localExists
  · rw [if_pos hloc]
    simp only
    constructor
    · intro hc
      by_cases hemp : fs.fileTasks.isEmpty
      · rw [if_pos hemp] at hc; simp at hc
      · rw [if_neg hemp] at hc; simp at hc
    · rintro ⟨hc, -⟩
      rw [hloc] at hc
      cases hc
  · rw [if_neg hloc]
    by_cases hany : fs.candidatesExist.any (fun b => b)
    · rw [if_pos hany]
      by_cases hcopy : fs.copyOk
      · rw [if_pos hcopy]
        simp only
        constructor
        · intro hc
          by_cases hemp : fs.fileTasks.isEmpty
          · rw [if_pos hemp] at hc; simp at hc
          · rw [if_neg hemp] at hc; simp at hc
        · rintro ⟨-, hc⟩
          rw [hc] at hany
          cases hany
      · rw [if_neg hcopy]
        simp only
        constructor
        · intro hc; simp at hc
        · rintro ⟨-, hc⟩
          rw [hc] at hany
          cases hany
    · rw [if_neg hany]
      simp only
      constructor
      · intro _
        exact ⟨by simp at hloc; exact hloc, by simp at hany; simp [hany]⟩
      · intro _; trivial

/-- C7 counterexample: with a catalogue file that exists locally and holds
two task entries, the variant loader fails with "Expected exactly one
Autobooks benchmark task" even though a JSON source exists and the entry
count is positive, contradicting "one Task record per entry, for any
positive number of entries". -/
theorem c7_counterexample :
    fsTwo.localExists = true ∧ fsTwo.fileTasks.length = 2 ∧
    variant_load_autobooks_task fsTwo =
      Except.error LoaderErr.notExactlyOne :=
  ⟨rfl, rfl, rfl⟩

/-- C7 (amended): `load_autobooks_tasks` succeeds exactly when the file
resolution succeeds (local copy present, or a fallback source exists and
the self-healing copy succeeds) and the file holds at least one entry, in
which case it returns one Task per entry; it reports the no-source error
exactly when no JSON source exists anywhere in the search path; the
variant loader additionally requires exactly one entry; and filtering
`/evaluate` by a task id absent from the catalogue yields the 404
not-found error with no loop execution (empty trace). -/
theorem c7_loader (fs fs2 fs3 : TasksFS) (t : Task) (dms : Nat)
    (evFor : Task → EvaluatorModel) (agentFor : Task → Nat → AgentResult)
    (req : EvaluateRequest) (tid : String)
    (hresolve : resolveTasksPath fs = Except.ok ())
    (hne : fs.fileTasks ≠ [])
    (hvar : variant_load_autobooks_task fs2 = Except.ok t)
    (hms : ¬ resolveMaxSteps req.max_steps dms ≤ 0)
    (htid : req.task_id = some tid)
    (habsent : ∀ u ∈ fs.fileTasks.map taskOfEntry, u.id ≠ tid) :
    load_autobooks_tasks fs = Except.ok (fs.fileTasks.map taskOfEntry) ∧
    (fs.fileTasks.map taskOfEntry).length = fs.fileTasks.length ∧
    fs2.fileTasks.length = 1 ∧
    evaluate dms fs evFor agentFor req =
      ([], Except.error (HttpError.notFound "Task not found")) ∧
    (isOkE (load_autobooks_tasks fs3) = true ↔
      (resolveTasksPath fs3 = Except.ok () ∧ fs3.fileTasks ≠ [])) ∧
    (load_autobooks_tasks fs3 = Except.error LoaderErr.noSource ↔
      (fs3.localExists = false ∧
        fs3.candidatesExist.any (fun b => b) = false)) := by
  have hload : load_autobooks_tasks fs =
      Except.ok (fs.fileTasks.map taskOfEntry) := by
    unfold load_autobooks_tasks
    rw [hresolve]
    simp only
    rw [if_neg (by simpa using hne)]
  have hlen2 : fs2.fileTasks.length = 1 := by
    unfold variant_load_autobooks_task at hvar
    rcases hres : resolveTasksPath fs2 with e | u
    · rw [hres] at hvar; simp at hvar
    · rw [hres] at hvar
      simp only at hvar
      rcases hl2 : fs2.fileTasks with _ | ⟨a, _ | ⟨b, l⟩⟩
      · rw [hl2] at hvar; simp at hvar
      · rfl
      · rw [hl2] at hvar; simp at hvar
  refine ⟨hload, List.length_map _ _, hlen2, ?_, load_ok_iff fs3,
    load_noSource_iff fs3⟩
  have hfil : ((fs.fileTasks.map taskOfEntry).filter
      (fun t => t.id = tid)).isEmpty = true := by
    have : (fs.fileTasks.map taskOfEntry).filter
        (fun t => decide (t.id = tid)) = [] := by
      rw [List.filter_eq_nil_iff]
      intro a ha
      simp only [decide_eq_true_eq]
      exact habsent a ha
    simp [this]
  simp only [evaluate]
  rw [if_neg hms, hload]
  simp only
  rw [if_neg (by simpa using hne), htid]
  simp only
  rw [if_pos hfil]

/-- Witness for C7 on concrete inputs: the two-entry catalogue with an
absent filter id, and the one-entry catalogue for the variant loader. -/
theorem c7_loader_witness :
    load_autobooks_tasks fsTwo =
      Except.ok (fsTwo.fileTasks.map taskOfEntry) ∧
    (fsTwo.fileTasks.map taskOfEntry).length = fsTwo.fileTasks.length ∧
    fsOne.fileTasks.length = 1 ∧
    evaluate 30 fsTwo (fun _ => evWin) (fun _ => agentList) reqMissing =
      ([], Except.error (HttpError.notFound "Task not found")) ∧
    (isOkE (load_autobooks_tasks fsOne) = true ↔
      (resolveTasksPath fsOne = Except.ok () ∧ fsOne.fileTasks ≠ [])) ∧
    (load_autobooks_tasks fsOne = Except.error LoaderErr.noSource ↔
      (fsOne.localExists = false ∧
        fsOne.candidatesExist.any (fun b => b) = false)) :=
  c7_loader fsTwo fsOne fsOne (taskOfEntry entryA) 30 (fun _ => evWin)
    (fun _ => agentList) reqMissing "missing" rfl (by decide) rfl
    (by decide) rfl (by decide)

/-- C1: behaviour of the code at the failing input max_steps = 0.  Because
of the Python expression `int(request.max_steps or _max_steps)`, a
requested value of 0 is falsy and is replaced by the (always positive)
default before the `max_steps <= 0` check, so the request is NOT rejected
with 400: the handler proceeds and invokes the evaluation loop.  Negative
values do produce the 400 error with no loop execution, and the default
itself is always positive. -/
theorem c1_zero_max_steps_runs :
    resolveMaxSteps (some 0) 30 = 30 ∧
    isOkE (evaluate 30 fsOne (fun _ => evWin) (fun _ => agentList)
      reqZero).2 = true ∧
    Event.resetCalled ∈ (evaluate 30 fsOne (fun _ => evWin)
      (fun _ => agentList) reqZero).1 ∧
    evaluate 30 fsOne (fun _ => evWin) (fun _ => agentList) reqNeg =
      ([], Except.error (HttpError.badRequest "max_steps must be positive")) ∧
    get_default_max_steps EnvVarValue.unset = 30 ∧
    get_default_max_steps (EnvVarValue.value (-7)) = 30 := by
  refine ⟨rfl, rfl, ?_, rfl, rfl, rfl⟩
  decide

end AffineEnv
